import Mathlib

/-
Shallow embedding of the daily-report pipeline in main.py of the ec-report
repository.  The program is a linear pipeline: read a prompt file, query a
generative-AI model (with an optional web-search tool), render the answer as
an HTML page, write the page to index.html and to a dated archive file, and
send it by email.  External effects are modelled as explicit inputs:

  - the wall clock is a function from the index of the clock reading to a
    DateTime value (main.py reads the clock four times per successful run);
  - the filesystem is an FS record (prompt file, index.html, reports/);
  - the generative-AI call, the markdown renderer and the SMTP transaction
    are function-valued fields of a World record, each returning either a
    value or the text of the exception it raised.
-/

namespace ECReport

-- ### Time model (main.py lines 18-22).
-- A clock reading, as produced by datetime.datetime.now in the Asia/Taipei
-- timezone.  The date field stands for the strftime %Y-%m-%d part and the
-- time field for the %H:%M:%S part.
structure DateTime where
  date : String
  time : String
deriving DecidableEq, Repr

-- get_current_time_str (main.py lines 18-22): now.strftime of
-- %Y-%m-%d %H:%M:%S (UTC+8), applied to the given clock reading.
def get_current_time_str (dt : DateTime) : String :=
  dt.date ++ " " ++ dt.time ++ " (UTC+8)"

-- ### Models of the Python string builtins used by main.py.

-- Lexicographic comparison of code-point sequences: the order Python uses
-- when the sorted builtin compares two str values.
def pyStrLeChars : List Char → List Char → Bool
  | [], _ => true
  | _ :: _, [] => false
  | a :: as, b :: bs =>
    if a.toNat < b.toNat then true
    else if b.toNat < a.toNat then false
    else pyStrLeChars as bs

def pyStrLe (a b : String) : Bool := pyStrLeChars a.data b.data

-- The descending order used by sorted(..., reverse=True) in main.py line 107.
abbrev descOrder (a b : String) : Prop := pyStrLe b a = true

-- sorted(filenames, reverse=True): a descending sort of the listing.
def sortedDesc (l : List String) : List String :=
  List.insertionSort descOrder l

-- str.endswith (main.py line 108).
def pyEndsWith (s suffix : String) : Bool :=
  suffix.data.isSuffixOf s.data

-- str.replace: replace every non-overlapping occurrence of pat, scanning
-- left to right (main.py lines 109 and 309).  The fuel argument is the
-- length of the remaining input; each step consumes at least one character,
-- so the initial fuel is never exhausted.
def pyReplaceChars (pat rep : List Char) : Nat → List Char → List Char
  | _, [] => []
  | 0, l => l
  | fuel + 1, c :: cs =>
    if pat.isPrefixOf (c :: cs) then rep ++ pyReplaceChars pat rep fuel ((c :: cs).drop pat.length)
    else c :: pyReplaceChars pat rep fuel cs

-- For an empty pattern Python would interleave the replacement between the
-- characters; the pipeline only ever replaces the nonempty patterns
-- ".html" and the CURRENT_DATE placeholder, so that case is unreachable
-- and we return the string unchanged there.
def pyReplace (s pat rep : String) : String :=
  if pat.data.isEmpty then s
  else ⟨pyReplaceChars pat.data rep.data s.data.length s.data⟩

-- ### The google.generativeai client, as far as main.py observes it.

-- A response candidate (only its finish_reason is read, line 78).
structure Candidate where
  finish_reason : String
deriving DecidableEq, Repr

-- The GenerateContentResponse fields read by generate_report:
-- parts (line 75), prompt_feedback (lines 76-77, an Option since Python
-- tests it for truthiness), candidates (line 78) and text (line 80).
structure Response where
  parts : List String
  text : String
  prompt_feedback : Option String
  candidates : List Candidate
deriving DecidableEq, Repr

-- Which search-tool classes the installed client version exposes:
-- hasattr(protos, GoogleSearch) and hasattr(protos, GoogleSearchRetrieval)
-- (main.py lines 38 and 41).
structure Protos where
  hasGoogleSearch : Bool
  hasGoogleSearchRetrieval : Bool
deriving DecidableEq, Repr

-- The tool configuration built in main.py lines 38-52.  The retrieval shape
-- carries the DynamicRetrievalConfig fields mode=DYNAMIC and
-- dynamic_threshold=0.3 (kept as strings; the numeric value is inert).
inductive SearchTool where
  | googleSearch
  | googleSearchRetrieval (mode : String) (dynamicThreshold : String)
deriving DecidableEq, Repr

-- The one exception generate_report can raise past its own handler:
-- the ImportError of main.py line 56.
inductive GenError where
  | importError (msg : String)
deriving DecidableEq, Repr

-- main.py lines 38-56: probe for GoogleSearch first, then
-- GoogleSearchRetrieval, and raise ImportError when neither exists.
def configureTools (protos : Protos) : Except GenError (List SearchTool) :=
  if protos.hasGoogleSearch = true then
    Except.ok [SearchTool.googleSearch]
  else if protos.hasGoogleSearchRetrieval = true then
    Except.ok [SearchTool.googleSearchRetrieval "DYNAMIC" "0.3"]
  else
    Except.error (GenError.importError
      "Google Search tool class not found in installed google-generativeai version.")

-- The try/except body of main.py lines 70-91, applied to the outcome of
-- model.generate_content: Except.error e is the text of an exception raised
-- by the call, Except.ok a returned response.
def extractText (r : Except String Response) : String :=
  match r with
  | Except.ok response =>
    if response.parts.isEmpty then
      match response.prompt_feedback with
      | some fb => "Error: Blocked by safety filters. Feedback: " ++ fb
      | none =>
        "Error: Empty response. Finish reason: " ++
          (match response.candidates with
           | [] => "Unknown"
           | c :: _ => c.finish_reason)
    else response.text
  | Except.error e =>
    "Error generating report: " ++ e ++ ". Check the Action logs for available models."

-- generate_report (main.py lines 29-91).  generateContent stands for the
-- external model.generate_content call; timeStr is the clock reading taken
-- at line 62.  The function raises (returns Except.error) only through the
-- ImportError of the tool probe; every other path returns a string.
def generate_report (protos : Protos) (generateContent : String → Except String Response)
    (prompt timeStr : String) : Except GenError String :=
  match configureTools protos with
  | Except.error e => Except.error e
  | Except.ok _tools =>
    let full_prompt :=
      prompt ++ "\n\n(System Note: The current execution time is " ++ timeStr ++ ")"
    Except.ok (extractText (generateContent full_prompt))

-- convert_to_html (main.py lines 93-99): a call into the external markdown
-- library, modelled as an explicit function argument.
def convert_to_html (markdownRender : String → String) (markdown_text : String) : String :=
  markdownRender markdown_text

-- get_history_links (main.py lines 101-122).  The argument is the state of
-- the reports directory: none when os.path.exists("reports") is false,
-- some filenames for the os.listdir result.
def get_history_links (listing : Option (List String)) : String :=
  match listing with
  | none => ""
  | some filenames =>
    let links := ((sortedDesc filenames).filter (fun fn => pyEndsWith fn ".html")).map
      (fun filename =>
        "<li><a href=\"reports/" ++ filename ++ "\">" ++
          pyReplace filename ".html" "" ++ "</a></li>")
    if links.isEmpty then ""
    else
      "\n    <div class=\"history-section\">\n        <h3>📅 歷史報告存檔</h3>\n        <ul>\n            " ++
        String.join links ++
        "\n        </ul>\n    </div>\n    "

-- The style sheet of the page template (main.py lines 129-269), after the
-- textwrap.dedent applied at line 279.  Inert text: no claim depends on it.
def dedentedCss : String := "\n:root \x7b\n    --primary-color: #2c3e50;\n    --accent-color: #3498db;\n    --bg-color: #f8f9fa;\n    --card-bg: #ffffff;\n    --text-color: #333;\n    --border-radius: 12px;\n\x7d\n\nbody \x7b\n    font-family: -apple-system, BlinkMacSystemFont, \"Segoe UI\", Roboto, Helvetica, Arial, sans-serif;\n    line-height: 1.6;\n    color: var(--text-color);\n    background-color: var(--bg-color);\n    margin: 0;\n    padding: 20px;\n    -webkit-font-smoothing: antialiased;\n\x7d\n\n.container \x7b\n    max-width: 800px;\n    margin: 0 auto;\n    background: var(--card-bg);\n    padding: 30px;\n    border-radius: var(--border-radius);\n    box-shadow: 0 4px 6px rgba(0,0,0,0.05);\n\x7d\n\nh1, h2, h3 \x7b\n    color: var(--primary-color);\n    margin-top: 1.5em;\n\x7d\n\nh1 \x7b\n    font-size: 1.8rem;\n    border-bottom: 2px solid var(--accent-color);\n    padding-bottom: 10px;\n    margin-top: 0;\n\x7d\n\nh2 \x7b\n    font-size: 1.4rem;\n    border-left: 4px solid var(--accent-color);\n    padding-left: 10px;\n    background: #f1f8ff;\n    padding: 8px 10px;\n    border-radius: 0 8px 8px 0;\n\x7d\n\nh3 \x7b\n    font-size: 1.2rem;\n    color: #555;\n\x7d\n\ntable \x7b\n    width: 100%;\n    border-collapse: collapse;\n    margin: 20px 0;\n    display: block;\n    overflow-x: auto;\n\x7d\n\nth, td \x7b\n    padding: 12px;\n    border: 1px solid #ddd;\n    text-align: left;\n\x7d\n\nth \x7b\n    background-color: var(--primary-color);\n    color: white;\n\x7d\n\ntr:nth-child(even) \x7b\n    background-color: #f2f2f2;\n\x7d\n\nblockquote \x7b\n    border-left: 4px solid var(--accent-color);\n    margin: 0;\n    padding-left: 15px;\n    color: #666;\n    font-style: italic;\n\x7d\n\n.history-section \x7b\n    margin-top: 40px;\n    padding-top: 20px;\n    border-top: 2px dashed #eee;\n\x7d\n\n.history-section ul \x7b\n    list-style: none;\n    padding: 0;\n    display: flex;\n    flex-wrap: wrap;\n    gap: 10px;\n\x7d\n\n.history-section li a \x7b\n    display: inline-block;\n    padding: 5px 15px;\n    background: #f0f0f0;\n    color: #555;\n    text-decoration: none;\n    border-radius: 20px;\n    font-size: 0.9rem;\n    transition: background 0.2s;\n\x7d\n\n.history-section li a:hover \x7b\n    background: var(--accent-color);\n    color: white;\n\x7d\n\n.footer \x7b\n    margin-top: 40px;\n    text-align: center;\n    font-size: 0.9rem;\n    color: #888;\n    border-top: 1px solid #eee;\n    padding-top: 20px;\n\x7d\n\n/* Mobile Optimization */\n@media (max-width: 600px) \x7b\n    body \x7b\n        padding: 10px;\n    \x7d\n    .container \x7b\n        padding: 15px;\n    \x7d\n    h1 \x7b\n        font-size: 1.5rem;\n    \x7d\n    table \x7b\n        font-size: 0.9rem;\n    \x7d\n\x7d\n"

-- The fixed chunks of the html_template f-string (main.py lines 271-294),
-- split at its four interpolation points.
def pageHead : String := "\n    <!DOCTYPE html>\n    <html lang=\"zh-TW\">\n    <head>\n        <meta charset=\"UTF-8\">\n        <meta name=\"viewport\" content=\"width=device-width, initial-scale=1.0\">\n        <title>每日美股宏觀晨報</title>\n        <style>\n            "

def pageAfterStyle : String := "\n        </style>\n    </head>\n    <body>\n        <div class=\"container\">\n            "

def pageAfterReport : String := "\n            \n            "

def footerLabel : String := "Generated automatically by AI Agent at "

def pageBeforeFooter : String :=
  "\n            \n            <div class=\"footer\">\n                <p>" ++ footerLabel

def pageTail : String := "</p>\n            </div>\n        </div>\n    </body>\n    </html>\n    "

-- create_html_page (main.py lines 124-295).  dt is the clock reading taken
-- by the get_current_time_str call at line 126; listing is the reports
-- directory state read by get_history_links at line 127.
def create_html_page (report_html : String) (dt : DateTime) (listing : Option (List String)) : String :=
  let current_time := get_current_time_str dt
  let history_links := get_history_links listing
  pageHead ++ dedentedCss ++ pageAfterStyle ++ report_html ++ pageAfterReport ++
    history_links ++ pageBeforeFooter ++ current_time ++ pageTail

-- ### Filesystem model.

-- The files main.py touches: the prompt file report.md, the current output
-- index.html, and the reports directory as a list of (filename, content)
-- entries; none means the directory does not exist.
structure FS where
  reportMdExists : Bool
  reportMd : String
  indexHtml : Option String
  reports : Option (List (String × String))

-- read_report_prompt (main.py lines 24-27); called only after the existence
-- check of line 301.
def read_report_prompt (fs : FS) : String := fs.reportMd

-- The os.listdir view of the reports directory.
def listingOf (fs : FS) : Option (List String) :=
  fs.reports.map (fun dir => dir.map Prod.fst)

-- Writing a file: replace the content of an existing entry of the same
-- name, otherwise append a new entry.
def writeFileAssoc (dir : List (String × String)) (name content : String) :
    List (String × String) :=
  if dir.any (fun p => decide (p.1 = name)) then
    dir.map (fun p => if p.1 = name then (name, content) else p)
  else dir ++ [(name, content)]

-- os.makedirs("reports") guarded by os.path.exists (main.py lines 331-332).
def ensureReportsDir (fs : FS) : FS :=
  match fs.reports with
  | none => { fs with reports := some [] }
  | some _ => fs

-- The content of a file of the reports directory, if present.
def FS.archiveContent (fs : FS) (name : String) : Option String :=
  (fs.reports.getD []).lookup name

-- ### Email step.

-- Python truthiness of an environment lookup: None and the empty string
-- are both falsy (main.py line 358).
def envTruthy : Option String → Bool
  | none => false
  | some s => !s.isEmpty

inductive EmailResult where
  | skipped
  | sent
  | failed (e : String)
deriving DecidableEq, Repr

-- send_email (main.py lines 346-379).  smtpTransaction stands for the whole
-- try block of lines 364-375 (message construction, SMTP_SSL connection,
-- login, send_message), taking the html content and the date string and
-- returning unit or the text of the exception it raised.
def send_email (emailSender emailPassword : Option String)
    (smtpTransaction : String → String → Except String Unit)
    (html_content date_str : String) : EmailResult :=
  if !envTruthy emailSender || !envTruthy emailPassword then
    EmailResult.skipped
  else
    match smtpTransaction html_content date_str with
    | Except.ok _ => EmailResult.sent
    | Except.error e => EmailResult.failed e

-- ### The whole run.

-- The external environment of one run.
structure World where
  clock : Nat → DateTime
  protos : Protos
  generateContent : String → Except String Response
  markdownRender : String → String
  emailSender : Option String
  emailPassword : Option String
  smtpTransaction : String → String → Except String Unit

-- How a run of main (main.py lines 297-344) can end: the early return of
-- line 303, an exception propagating out (only the ImportError of the tool
-- probe), or normal completion.
inductive MainOutcome where
  | missingPrompt (fs : FS)
  | raised (e : GenError) (fs : FS)
  | completed (fs : FS) (email : EmailResult)

def MainOutcome.fs : MainOutcome → FS
  | MainOutcome.missingPrompt fs => fs
  | MainOutcome.raised _ fs => fs
  | MainOutcome.completed fs _ => fs

def MainOutcome.email : MainOutcome → Option EmailResult
  | MainOutcome.completed _ e => some e
  | _ => none

-- main (main.py lines 297-344).  Clock readings, in order: index 0 at line
-- 308 (placeholder substitution), index 1 at line 62 inside generate_report,
-- index 2 at line 126 inside create_html_page (the footer), index 3 at
-- lines 335-336 (the archive filename).
def main (w : World) (fs : FS) : MainOutcome :=
  if fs.reportMdExists = false then
    MainOutcome.missingPrompt fs
  else
    let prompt0 := read_report_prompt fs
    let current_time_str := get_current_time_str (w.clock 0)
    let prompt := pyReplace prompt0 "\x7b\x7bCURRENT_DATE\x7d\x7d" current_time_str
    match generate_report w.protos w.generateContent prompt
        (get_current_time_str (w.clock 1)) with
    | Except.error e => MainOutcome.raised e fs
    | Except.ok report_markdown =>
      let report_html := convert_to_html w.markdownRender report_markdown
      let full_html := create_html_page report_html (w.clock 2) (listingOf fs)
      let fs1 : FS := { fs with indexHtml := some full_html }
      let fs2 := ensureReportsDir fs1
      let today_str := (w.clock 3).date
      let archive_filename := today_str ++ ".html"
      let fs3 : FS :=
        { fs2 with reports := some (writeFileAssoc (fs2.reports.getD []) archive_filename full_html) }
      MainOutcome.completed fs3
        (send_email w.emailSender w.emailPassword w.smtpTransaction full_html today_str)

-- ### Derived descriptions of a completed run (used in theorem statements).

-- The prompt after placeholder substitution (main.py line 309).
def promptOf (w : World) (fs : FS) : String :=
  pyReplace (read_report_prompt fs) "\x7b\x7bCURRENT_DATE\x7d\x7d"
    (get_current_time_str (w.clock 0))

-- The full prompt sent to the model (main.py line 62).
def fullPromptOf (w : World) (fs : FS) : String :=
  promptOf w fs ++ "\n\n(System Note: The current execution time is " ++
    get_current_time_str (w.clock 1) ++ ")"

-- The markdown text generate_report hands back on a completed run.
def mainMarkdown (w : World) (fs : FS) : String :=
  extractText (w.generateContent (fullPromptOf w fs))

-- The page a completed run writes to index.html and to the archive; note
-- that the history listing is the one read before the archive write.
def mainPage (w : World) (fs : FS) : String :=
  create_html_page (convert_to_html w.markdownRender (mainMarkdown w fs))
    (w.clock 2) (listingOf fs)

-- The archive filename of the run, relative to the reports directory
-- (main.py lines 335-337 build reports/<date>.html from clock reading 3).
def archiveName (w : World) : String := (w.clock 3).date ++ ".html"

-- The filesystem a completed run leaves behind.
def mainFS (w : World) (fs : FS) : FS :=
  let fs2 := ensureReportsDir { fs with indexHtml := some (mainPage w fs) }
  { fs2 with reports := some (writeFileAssoc (fs2.reports.getD []) (archiveName w) (mainPage w fs)) }

-- The filenames rendered by get_history_links, in rendering order.
def historyFilenames (listing : Option (List String)) : List String :=
  match listing with
  | none => []
  | some filenames => (sortedDesc filenames).filter (fun fn => pyEndsWith fn ".html")

-- ### Concrete fixtures for witness theorems.

def respFixture : Response :=
  { parts := ["report body"], text := "report body", prompt_feedback := none, candidates := [] }

def emptyRespFixture : Response :=
  { parts := [], text := "", prompt_feedback := none, candidates := [] }

def dtFixture : DateTime := { date := "2025-11-23", time := "08:00:00" }

-- A clock that crosses midnight between the footer reading (index 2) and
-- the archive-filename reading (index 3).
def midnightClock : Nat → DateTime := fun n =>
  if n ≤ 2 then { date := "2025-11-23", time := "23:59:59" }
  else { date := "2025-11-24", time := "00:00:00" }

def fsFixture : FS :=
  { reportMdExists := true, reportMd := "prompt text", indexHtml := none, reports := none }

def fsNoPromptFixture : FS :=
  { reportMdExists := false, reportMd := "", indexHtml := none, reports := none }

def worldFixture : World :=
  { clock := fun _ => dtFixture
    protos := { hasGoogleSearch := true, hasGoogleSearchRetrieval := false }
    generateContent := fun _ => Except.ok respFixture
    markdownRender := fun s => s
    emailSender := none
    emailPassword := none
    smtpTransaction := fun _ _ => Except.ok () }

def midnightWorld : World :=
  { worldFixture with clock := midnightClock, generateContent := fun _ => Except.error "boom" }

def genFailWorld : World :=
  { worldFixture with generateContent := fun _ => Except.error "boom" }

def emailFailWorld : World :=
  { worldFixture with
      emailSender := some "sender@example.com"
      emailPassword := some "secret"
      smtpTransaction := fun _ _ => Except.error "authentication failed" }

-- ## Helper lemmas

theorem pyStrLeChars_total (a b : List Char) :
    pyStrLeChars a b = true ∨ pyStrLeChars b a = true := by
  induction a generalizing b with
  | nil => left; rfl
  | cons x xs ih =>
    cases b with
    | nil => right; rfl
    | cons y ys =>
      by_cases h1 : x.toNat < y.toNat
      · left; simp [pyStrLeChars, h1]
      · by_cases h2 : y.toNat < x.toNat
        · right; simp [pyStrLeChars, h1, h2]
        · rcases ih ys with h | h
          · left; simp [pyStrLeChars, h1, h2, h]
          · right; simp [pyStrLeChars, h1, h2, h]

theorem pyStrLeChars_trans {a b c : List Char} (hab : pyStrLeChars a b = true)
    (hbc : pyStrLeChars b c = true) : pyStrLeChars a c = true := by
  induction a generalizing b c with
  | nil => rfl
  | cons x xs ih =>
    cases b with
    | nil => simp [pyStrLeChars] at hab
    | cons y ys =>
      cases c with
      | nil => simp [pyStrLeChars] at hbc
      | cons z zs =>
        simp only [pyStrLeChars] at hab hbc ⊢
        by_cases hxy : x.toNat < y.toNat <;> by_cases hyz : y.toNat < z.toNat <;>
          by_cases hyx : y.toNat < x.toNat <;> by_cases hzy : z.toNat < y.toNat <;>
          simp_all <;> try omega
        all_goals (first
          | (have hxz : x.toNat < z.toNat := by omega
             simp [hxz])
          | (have hxz : x.toNat = z.toNat := by omega
             simp [hxz, lt_irrefl]
             exact ih hab hbc))

theorem pyStrLeChars_antisymm {a b : List Char} (hab : pyStrLeChars a b = true)
    (hba : pyStrLeChars b a = true) : a = b := by
  induction a generalizing b with
  | nil =>
    cases b with
    | nil => rfl
    | cons y ys => simp [pyStrLeChars] at hba
  | cons x xs ih =>
    cases b with
    | nil => simp [pyStrLeChars] at hab
    | cons y ys =>
      simp only [pyStrLeChars] at hab hba
      by_cases hxy : x.toNat < y.toNat <;> by_cases hyx : y.toNat < x.toNat <;> simp_all
      · omega
      · have hx : x = y := by
          have hn : x.toNat = y.toNat := by omega
          calc x = Char.ofNat x.toNat := (Char.ofNat_toNat x).symm
            _ = Char.ofNat y.toNat := by rw [hn]
            _ = y := Char.ofNat_toNat y
        exact ⟨hx, ih hab hba⟩

theorem descOrder_isTotal : IsTotal String descOrder :=
  ⟨fun a b => by unfold descOrder pyStrLe; exact pyStrLeChars_total b.data a.data⟩

theorem descOrder_isTrans : IsTrans String descOrder :=
  ⟨fun _ _ _ h1 h2 => pyStrLeChars_trans h2 h1⟩

theorem descOrder_isAntisymm : IsAntisymm String descOrder :=
  ⟨fun a b h1 h2 => by
    have hd : a.data = b.data := pyStrLeChars_antisymm h2 h1
    cases a; cases b; exact congrArg String.mk hd⟩

-- sorted(..., reverse=True) yields a descending-sorted list.
theorem sortedDesc_sorted (l : List String) : List.Sorted descOrder (sortedDesc l) := by
  haveI := descOrder_isTotal
  haveI := descOrder_isTrans
  exact List.sorted_insertionSort descOrder l

theorem sortedDesc_perm (l : List String) : (sortedDesc l).Perm l :=
  List.perm_insertionSort descOrder l

-- The sorted listing does not depend on the enumeration order of the
-- directory: any permutation of the input sorts to the same list.
theorem sortedDesc_congr_perm {l₁ l₂ : List String} (h : l₁.Perm l₂) :
    sortedDesc l₁ = sortedDesc l₂ := by
  haveI := descOrder_isTotal
  haveI := descOrder_isTrans
  haveI := descOrder_isAntisymm
  exact List.eq_of_perm_of_sorted
    (((sortedDesc_perm l₁).trans h).trans (sortedDesc_perm l₂).symm)
    (sortedDesc_sorted l₁) (sortedDesc_sorted l₂)

theorem lookup_map_replace (name content : String) (dir : List (String × String))
    (h : dir.any (fun p => decide (p.1 = name)) = true) :
    (dir.map (fun p => if p.1 = name then (name, content) else p)).lookup name
      = some content := by
  induction dir with
  | nil => simp at h
  | cons q qs ih =>
    by_cases hq : q.1 = name
    · rw [List.map_cons, if_pos hq, List.lookup_cons]
      simp
    · have h2 : qs.any (fun p => decide (p.1 = name)) = true := by
        rw [List.any_cons] at h
        simpa [hq] using h
      have hnq : (name == q.1) = false := beq_eq_false_iff_ne.mpr (fun hh => hq hh.symm)
      rw [List.map_cons, if_neg hq]
      cases q with
      | mk qk qv =>
        rw [List.lookup_cons]
        simp only at hnq
        rw [hnq]
        exact ih h2

theorem lookup_append_fresh (name content : String) (dir : List (String × String))
    (h : dir.any (fun p => decide (p.1 = name)) = false) :
    (dir ++ [(name, content)]).lookup name = some content := by
  induction dir with
  | nil => simp [List.lookup]
  | cons q qs ih =>
    rw [List.any_cons, Bool.or_eq_false_iff] at h
    have hq : ¬(q.1 = name) := by simpa using h.1
    have hnq : (name == q.1) = false := beq_eq_false_iff_ne.mpr (fun hh => hq hh.symm)
    rw [List.cons_append]
    cases q with
    | mk qk qv =>
      rw [List.lookup_cons]
      simp only at hnq
      rw [hnq]
      exact ih h.2

-- Writing a file makes its content retrievable under its name.
theorem lookup_writeFileAssoc (dir : List (String × String)) (name content : String) :
    (writeFileAssoc dir name content).lookup name = some content := by
  unfold writeFileAssoc
  cases hany : dir.any (fun p => decide (p.1 = name)) with
  | true =>
    simp only [hany, if_true]
    exact lookup_map_replace name content dir hany
  | false =>
    simp only [hany, Bool.false_eq_true, if_false]
    exact lookup_append_fresh name content dir hany

-- Writing a file leaves exactly one directory entry of that name, provided
-- the directory held at most one before (true of any real directory).
theorem countP_writeFileAssoc (dir : List (String × String)) (name content : String)
    (h : dir.countP (fun p => decide (p.1 = name)) ≤ 1) :
    (writeFileAssoc dir name content).countP (fun p => decide (p.1 = name)) = 1 := by
  unfold writeFileAssoc
  cases hany : dir.any (fun p => decide (p.1 = name)) with
  | true =>
    simp only [hany, if_true, List.countP_map]
    have hcong : dir.countP ((fun p => decide (p.1 = name)) ∘
        (fun p => if p.1 = name then (name, content) else p)) =
        dir.countP (fun p => decide (p.1 = name)) := by
      apply List.countP_congr
      intro p _
      by_cases hp : p.1 = name
      · simp [Function.comp, hp]
      · simp [Function.comp, hp]
    rw [hcong]
    have hpos : 0 < dir.countP (fun p => decide (p.1 = name)) := by
      rw [List.countP_pos_iff]
      rcases List.any_eq_true.mp hany with ⟨p, hmem, hp⟩
      exact ⟨p, hmem, hp⟩
    omega
  | false =>
    have hzero : dir.countP (fun p => decide (p.1 = name)) = 0 := by
      rw [List.countP_eq_zero]
      intro p hmem
      have hfp := List.any_eq_false.mp hany p hmem
      simpa using hfp
    simp [hany, List.countP_append, hzero, List.countP_cons]

theorem ensureReportsDir_indexHtml (fs : FS) :
    (ensureReportsDir fs).indexHtml = fs.indexHtml := by
  cases h : fs.reports <;> simp [ensureReportsDir, h]

theorem ensureReportsDir_reportMdExists (fs : FS) :
    (ensureReportsDir fs).reportMdExists = fs.reportMdExists := by
  cases h : fs.reports <;> simp [ensureReportsDir, h]

theorem ensureReportsDir_getD (fs : FS) :
    (ensureReportsDir fs).reports.getD [] = fs.reports.getD [] := by
  cases h : fs.reports <;> simp [ensureReportsDir, h]

theorem mainFS_indexHtml (w : World) (fs : FS) :
    (mainFS w fs).indexHtml = some (mainPage w fs) := by
  simp [mainFS, ensureReportsDir_indexHtml]

theorem mainFS_reportMdExists (w : World) (fs : FS) :
    (mainFS w fs).reportMdExists = fs.reportMdExists := by
  simp [mainFS, ensureReportsDir_reportMdExists]

theorem mainFS_reports (w : World) (fs : FS) :
    (mainFS w fs).reports
      = some (writeFileAssoc (fs.reports.getD []) (archiveName w) (mainPage w fs)) := by
  simp [mainFS, ensureReportsDir_getD]

theorem mainFS_archiveContent (w : World) (fs : FS) :
    (mainFS w fs).archiveContent (archiveName w) = some (mainPage w fs) := by
  rw [FS.archiveContent, mainFS_reports]
  simp [lookup_writeFileAssoc]

-- A completed run: when the prompt file exists and the tool probe succeeds,
-- main writes mainPage to index.html and the archive and runs the email step.
theorem main_eq_completed (w : World) (fs : FS) (hx : fs.reportMdExists = true)
    (hp : w.protos.hasGoogleSearch = true ∨ w.protos.hasGoogleSearchRetrieval = true) :
    main w fs = MainOutcome.completed (mainFS w fs)
      (send_email w.emailSender w.emailPassword w.smtpTransaction
        (mainPage w fs) ((w.clock 3).date)) := by
  cases hgs : w.protos.hasGoogleSearch with
  | true =>
    simp [main, hx, generate_report, configureTools, hgs, mainFS, mainPage,
      mainMarkdown, fullPromptOf, promptOf, archiveName, convert_to_html]
  | false =>
    have hret : w.protos.hasGoogleSearchRetrieval = true := by
      rcases hp with h | h
      · rw [hgs] at h; exact absurd h (by simp)
      · exact h
    simp [main, hx, generate_report, configureTools, hgs, hret, mainFS, mainPage,
      mainMarkdown, fullPromptOf, promptOf, archiveName, convert_to_html]

-- When the tool probe succeeds, generate_report returns the extracted text
-- of the model call on the augmented prompt.
theorem generate_report_ok (protos : Protos)
    (generateContent : String → Except String Response) (prompt timeStr : String)
    (hp : protos.hasGoogleSearch = true ∨ protos.hasGoogleSearchRetrieval = true) :
    generate_report protos generateContent prompt timeStr
      = Except.ok (extractText (generateContent
          (prompt ++ "\n\n(System Note: The current execution time is " ++ timeStr ++ ")"))) := by
  cases hgs : protos.hasGoogleSearch with
  | true => simp [generate_report, configureTools, hgs]
  | false =>
    have hret : protos.hasGoogleSearchRetrieval = true := by
      rcases hp with h | h
      · rw [hgs] at h; exact absurd h (by simp)
      · exact h
    simp [generate_report, configureTools, hgs, hret]

-- The footer of every rendered page embeds the clock reading passed to
-- create_html_page.
theorem footer_infix (rh : String) (dt : DateTime) (listing : Option (List String)) :
    (footerLabel ++ get_current_time_str dt).data.IsInfix
      (create_html_page rh dt listing).data :=
  ⟨(pageHead ++ dedentedCss ++ pageAfterStyle ++ rh ++ pageAfterReport ++
      get_history_links listing ++
      "\n            \n            <div class=\"footer\">\n                <p>").data,
    pageTail.data, by
      simp [create_html_page, pageBeforeFooter, List.append_assoc]⟩

-- ## Claims

/-- C1: the claim says the formatted local timestamp is computed exactly once
per run and reused for both the archive filename and the footer, so the two
cannot disagree across a midnight rollover.  The code reads the clock again
at each call site: with a clock that crosses midnight between the footer
reading (create_html_page, line 126) and the archive-filename reading (main,
line 336), one completed run archives under 2025-11-24.html while the very
page it wrote carries a footer generated at 2025-11-23 23:59:59. -/
theorem c1_timestamp_not_single_read :
    ((main midnightWorld fsFixture).fs.reports.getD []).map Prod.fst = ["2025-11-24.html"]
    ∧ (main midnightWorld fsFixture).fs.indexHtml = some (mainPage midnightWorld fsFixture)
    ∧ (footerLabel ++ "2025-11-23 23:59:59 (UTC+8)").data.IsInfix
        (mainPage midnightWorld fsFixture).data := by
  have h := main_eq_completed midnightWorld fsFixture rfl (Or.inl rfl)
  have hfs : (main midnightWorld fsFixture).fs = mainFS midnightWorld fsFixture := by
    rw [h]
    simp [MainOutcome.fs]
  refine ⟨?_, ?_, ?_⟩
  · rw [hfs, mainFS_reports]
    have harch : archiveName midnightWorld = "2025-11-24.html" := by decide
    simp [fsFixture, writeFileAssoc, harch]
  · rw [hfs, mainFS_indexHtml]
  · have hinf := footer_infix
      (convert_to_html midnightWorld.markdownRender (mainMarkdown midnightWorld fsFixture))
      (midnightWorld.clock 2) (listingOf fsFixture)
    have ht : get_current_time_str (midnightWorld.clock 2)
        = "2025-11-23 23:59:59 (UTC+8)" := by decide
    rw [ht] at hinf
    exact hinf

/-- C2: if the model call raises, generate_report swallows the exception and
returns a string embedding its text, and the run still completes, writing that
diagnostic (rendered) as the body of both index.html and the dated archive
file. -/
theorem c2_generation_failure_writes_diagnostic (w : World) (fs : FS) (e : String)
    (hx : fs.reportMdExists = true)
    (hp : w.protos.hasGoogleSearch = true ∨ w.protos.hasGoogleSearchRetrieval = true)
    (hg : ∀ s, w.generateContent s = Except.error e) :
    generate_report w.protos w.generateContent (promptOf w fs)
        (get_current_time_str (w.clock 1))
      = Except.ok ("Error generating report: " ++ e ++
          ". Check the Action logs for available models.")
    ∧ (main w fs).fs.indexHtml = some (mainPage w fs)
    ∧ (main w fs).fs.archiveContent (archiveName w) = some (mainPage w fs)
    ∧ mainPage w fs = create_html_page
        (convert_to_html w.markdownRender ("Error generating report: " ++ e ++
          ". Check the Action logs for available models."))
        (w.clock 2) (listingOf fs)
    ∧ e.data.IsInfix ("Error generating report: " ++ e ++
        ". Check the Action logs for available models.").data := by
  have h := main_eq_completed w fs hx hp
  have hfs : (main w fs).fs = mainFS w fs := by
    rw [h]
    simp [MainOutcome.fs]
  have hmd : mainMarkdown w fs = "Error generating report: " ++ e ++
      ". Check the Action logs for available models." := by
    simp [mainMarkdown, hg, extractText]
  refine ⟨?_, ?_, ?_, ?_, ?_⟩
  · rw [generate_report_ok w.protos w.generateContent _ _ hp, hg, extractText]
  · rw [hfs, mainFS_indexHtml]
  · rw [hfs, mainFS_archiveContent]
  · rw [mainPage, hmd]
  · exact ⟨"Error generating report: ".data,
      ". Check the Action logs for available models.".data,
      by simp [List.append_assoc]⟩

/-- C2 witness: a concrete world whose model call always raises. -/
theorem c2_witness :
    generate_report genFailWorld.protos genFailWorld.generateContent
        (promptOf genFailWorld fsFixture) (get_current_time_str (genFailWorld.clock 1))
      = Except.ok ("Error generating report: " ++ "boom" ++
          ". Check the Action logs for available models.")
    ∧ (main genFailWorld fsFixture).fs.indexHtml = some (mainPage genFailWorld fsFixture)
    ∧ (main genFailWorld fsFixture).fs.archiveContent (archiveName genFailWorld)
        = some (mainPage genFailWorld fsFixture)
    ∧ mainPage genFailWorld fsFixture = create_html_page
        (convert_to_html genFailWorld.markdownRender ("Error generating report: " ++ "boom" ++
          ". Check the Action logs for available models."))
        (genFailWorld.clock 2) (listingOf fsFixture)
    ∧ "boom".data.IsInfix ("Error generating report: " ++ "boom" ++
        ". Check the Action logs for available models.").data :=
  c2_generation_failure_writes_diagnostic genFailWorld fsFixture "boom" rfl (Or.inl rfl)
    (fun _ => rfl)

/-- C3: the navigation block lists the archive entries sorted by filename in
descending order, independently of the enumeration order of the directory;
an absent directory, or one with no html entries, yields the empty string. -/
theorem c3_history_links_sorted (l₁ l₂ : List String) (hperm : l₁.Perm l₂) :
    get_history_links (some l₁) = get_history_links (some l₂)
    ∧ List.Sorted descOrder (historyFilenames (some l₁))
    ∧ get_history_links none = ""
    ∧ (historyFilenames (some l₁) = [] → get_history_links (some l₁) = "") := by
  refine ⟨?_, ?_, rfl, ?_⟩
  · simp [get_history_links, sortedDesc_congr_perm hperm]
  · exact List.Pairwise.filter _ (sortedDesc_sorted l₁)
  · intro h0
    simp only [historyFilenames] at h0
    simp [get_history_links, h0]

/-- C3 witness: the ordering example of the specification, enumerated in two
different orders. -/
theorem c3_witness :
    get_history_links (some ["2025-11-20.html", "2025-11-22.html", "2025-11-21.html"])
      = get_history_links (some ["2025-11-22.html", "2025-11-21.html", "2025-11-20.html"])
    ∧ List.Sorted descOrder
        (historyFilenames (some ["2025-11-20.html", "2025-11-22.html", "2025-11-21.html"]))
    ∧ get_history_links none = ""
    ∧ (historyFilenames (some ["2025-11-20.html", "2025-11-22.html", "2025-11-21.html"]) = [] →
        get_history_links (some ["2025-11-20.html", "2025-11-22.html", "2025-11-21.html"]) = "") :=
  c3_history_links_sorted _ _ (by decide)

/-- C4: when report.md is missing the run stops at the early return of main
line 303: no exception escapes, and neither index.html nor any archive file
is written. -/
theorem c4_missing_prompt_aborts (w : World) (fs : FS)
    (hx : fs.reportMdExists = false) :
    main w fs = MainOutcome.missingPrompt fs
    ∧ (main w fs).fs.indexHtml = fs.indexHtml
    ∧ (main w fs).fs.reports = fs.reports := by
  have h : main w fs = MainOutcome.missingPrompt fs := by simp [main, hx]
  refine ⟨h, ?_, ?_⟩ <;> rw [h] <;> simp [MainOutcome.fs]

/-- C4 witness: a concrete filesystem with no prompt file. -/
theorem c4_witness :
    main worldFixture fsNoPromptFixture = MainOutcome.missingPrompt fsNoPromptFixture
    ∧ (main worldFixture fsNoPromptFixture).fs.indexHtml = fsNoPromptFixture.indexHtml
    ∧ (main worldFixture fsNoPromptFixture).fs.reports = fsNoPromptFixture.reports :=
  c4_missing_prompt_aborts worldFixture fsNoPromptFixture rfl

/-- C5: when the response has no text part, generate_report returns a
human-readable error string instead of raising: the safety-filter string when
prompt feedback is present, otherwise the finish reason of the first
candidate, or Unknown when there is no candidate. -/
theorem c5_empty_response_error_string (p : Protos) (resp : Response)
    (gc : String → Except String Response) (prompt timeStr : String)
    (hp : p.hasGoogleSearch = true ∨ p.hasGoogleSearchRetrieval = true)
    (hgc : ∀ s, gc s = Except.ok resp)
    (hparts : resp.parts = []) :
    generate_report p gc prompt timeStr
      = Except.ok (match resp.prompt_feedback with
        | some fb => "Error: Blocked by safety filters. Feedback: " ++ fb
        | none =>
          "Error: Empty response. Finish reason: " ++
            (match resp.candidates with
             | [] => "Unknown"
             | c :: _ => c.finish_reason)) := by
  rw [generate_report_ok p gc _ _ hp, hgc, extractText]
  simp [hparts]

/-- C5 witness: a response with no parts, no prompt feedback and no
candidates yields the Unknown finish-reason string. -/
theorem c5_witness :
    generate_report { hasGoogleSearch := true, hasGoogleSearchRetrieval := false }
        (fun _ => Except.ok emptyRespFixture) "p" "t"
      = Except.ok "Error: Empty response. Finish reason: Unknown" :=
  c5_empty_response_error_string _ emptyRespFixture _ "p" "t" (Or.inl rfl)
    (fun _ => rfl) rfl

/-- C6: two completed runs on the same local calendar date target the same
archive filename; the second run overwrites the first, and the reports
directory never holds more than one entry for that date (assuming the
directory held at most one to begin with, as any real directory does). -/
theorem c6_same_date_single_archive (w₁ w₂ : World) (fs : FS) (d : String)
    (hx : fs.reportMdExists = true)
    (hp₁ : w₁.protos.hasGoogleSearch = true ∨ w₁.protos.hasGoogleSearchRetrieval = true)
    (hp₂ : w₂.protos.hasGoogleSearch = true ∨ w₂.protos.hasGoogleSearchRetrieval = true)
    (hd₁ : (w₁.clock 3).date = d) (hd₂ : (w₂.clock 3).date = d)
    (hwf : (fs.reports.getD []).countP (fun p => decide (p.1 = d ++ ".html")) ≤ 1) :
    archiveName w₁ = archiveName w₂
    ∧ ((main w₂ (main w₁ fs).fs).fs.reports.getD []).countP
        (fun p => decide (p.1 = d ++ ".html")) = 1
    ∧ (main w₂ (main w₁ fs).fs).fs.archiveContent (d ++ ".html")
        = some (mainPage w₂ (main w₁ fs).fs) := by
  have harch₁ : archiveName w₁ = d ++ ".html" := by rw [archiveName, hd₁]
  have harch₂ : archiveName w₂ = d ++ ".html" := by rw [archiveName, hd₂]
  have h₁ := main_eq_completed w₁ fs hx hp₁
  have hfs₁ : (main w₁ fs).fs = mainFS w₁ fs := by
    rw [h₁]
    simp [MainOutcome.fs]
  have hx₁ : (mainFS w₁ fs).reportMdExists = true := by
    rw [mainFS_reportMdExists]; exact hx
  have h₂ := main_eq_completed w₂ (mainFS w₁ fs) hx₁ hp₂
  have hfs₂ : (main w₂ (mainFS w₁ fs)).fs = mainFS w₂ (mainFS w₁ fs) := by
    rw [h₂]
    simp [MainOutcome.fs]
  have hdir₁ : (mainFS w₁ fs).reports.getD []
      = writeFileAssoc (fs.reports.getD []) (d ++ ".html") (mainPage w₁ fs) := by
    rw [mainFS_reports, harch₁]
    rfl
  have hcount₁ : ((mainFS w₁ fs).reports.getD []).countP
      (fun p => decide (p.1 = d ++ ".html")) = 1 := by
    rw [hdir₁]
    exact countP_writeFileAssoc _ _ _ hwf
  refine ⟨harch₁.trans harch₂.symm, ?_, ?_⟩
  · rw [hfs₁, hfs₂, mainFS_reports, harch₂]
    have : (some (writeFileAssoc ((mainFS w₁ fs).reports.getD []) (d ++ ".html")
        (mainPage w₂ (mainFS w₁ fs)))).getD []
        = writeFileAssoc ((mainFS w₁ fs).reports.getD []) (d ++ ".html")
            (mainPage w₂ (mainFS w₁ fs)) := rfl
    rw [this]
    exact countP_writeFileAssoc _ _ _ (le_of_eq hcount₁)
  · rw [hfs₁, hfs₂, ← harch₂, mainFS_archiveContent]

/-- C6 witness: two runs of the same fixture world on 2025-11-23 over an
initially absent reports directory. -/
theorem c6_witness :
    archiveName worldFixture = archiveName worldFixture
    ∧ ((main worldFixture (main worldFixture fsFixture).fs).fs.reports.getD []).countP
        (fun p => decide (p.1 = "2025-11-23" ++ ".html")) = 1
    ∧ (main worldFixture (main worldFixture fsFixture).fs).fs.archiveContent
        ("2025-11-23" ++ ".html")
        = some (mainPage worldFixture (main worldFixture fsFixture).fs) :=
  c6_same_date_single_archive worldFixture worldFixture fsFixture "2025-11-23"
    rfl (Or.inl rfl) (Or.inl rfl) rfl rfl (by simp [fsFixture])

/-- C7: with the sender address or the credential absent from the
environment, send_email returns the skip outcome without consulting the SMTP
transaction at all, and the run still completes with index.html and the
archive file written. -/
theorem c7_missing_credentials_skip_email (w : World) (fs : FS)
    (hx : fs.reportMdExists = true)
    (hp : w.protos.hasGoogleSearch = true ∨ w.protos.hasGoogleSearchRetrieval = true)
    (hcred : w.emailSender = none ∨ w.emailPassword = none) :
    main w fs = MainOutcome.completed (mainFS w fs) EmailResult.skipped
    ∧ (mainFS w fs).indexHtml = some (mainPage w fs)
    ∧ (mainFS w fs).archiveContent (archiveName w) = some (mainPage w fs)
    ∧ (∀ (smtp : String → String → Except String Unit) (h d : String),
        send_email w.emailSender w.emailPassword smtp h d = EmailResult.skipped) := by
  have hskip : ∀ (smtp : String → String → Except String Unit) (h d : String),
      send_email w.emailSender w.emailPassword smtp h d = EmailResult.skipped := by
    intro smtp h d
    rcases hcred with hc | hc <;> simp [send_email, envTruthy, hc]
  refine ⟨?_, mainFS_indexHtml w fs, mainFS_archiveContent w fs, hskip⟩
  rw [main_eq_completed w fs hx hp, hskip]

/-- C7 witness: the fixture world carries no email credentials. -/
theorem c7_witness :
    main worldFixture fsFixture
      = MainOutcome.completed (mainFS worldFixture fsFixture) EmailResult.skipped
    ∧ (mainFS worldFixture fsFixture).indexHtml = some (mainPage worldFixture fsFixture)
    ∧ (mainFS worldFixture fsFixture).archiveContent (archiveName worldFixture)
        = some (mainPage worldFixture fsFixture)
    ∧ (∀ (smtp : String → String → Except String Unit) (h d : String),
        send_email worldFixture.emailSender worldFixture.emailPassword smtp h d
          = EmailResult.skipped) :=
  c7_missing_credentials_skip_email worldFixture fsFixture rfl (Or.inl rfl) (Or.inl rfl)

/-- C8: an exception anywhere in the SMTP transaction is caught inside
send_email and turned into a reported failure outcome; the run still
completes, the files are already written, and the filesystem outcome does not
depend on the SMTP transaction at all. -/
theorem c8_email_failure_contained (w : World) (fs : FS) (sender password e : String)
    (hx : fs.reportMdExists = true)
    (hp : w.protos.hasGoogleSearch = true ∨ w.protos.hasGoogleSearchRetrieval = true)
    (hse : w.emailSender = some sender) (hpw : w.emailPassword = some password)
    (hsne : sender.isEmpty = false) (hpne : password.isEmpty = false)
    (hfail : ∀ h d, w.smtpTransaction h d = Except.error e) :
    main w fs = MainOutcome.completed (mainFS w fs) (EmailResult.failed e)
    ∧ (mainFS w fs).indexHtml = some (mainPage w fs)
    ∧ (mainFS w fs).archiveContent (archiveName w) = some (mainPage w fs)
    ∧ (∀ smtp : String → String → Except String Unit,
        (main { w with smtpTransaction := smtp } fs).fs = mainFS w fs) := by
  refine ⟨?_, mainFS_indexHtml w fs, mainFS_archiveContent w fs, ?_⟩
  · rw [main_eq_completed w fs hx hp]
    have : send_email w.emailSender w.emailPassword w.smtpTransaction
        (mainPage w fs) ((w.clock 3).date) = EmailResult.failed e := by
      simp [send_email, envTruthy, hse, hpw, hsne, hpne, hfail]
    rw [this]
  · intro smtp
    have h' := main_eq_completed { w with smtpTransaction := smtp } fs hx hp
    rw [h']
    simp only [MainOutcome.fs]
    rfl

/-- C8 witness: a world whose SMTP transaction always raises. -/
theorem c8_witness :
    main emailFailWorld fsFixture
      = MainOutcome.completed (mainFS emailFailWorld fsFixture)
          (EmailResult.failed "authentication failed")
    ∧ (mainFS emailFailWorld fsFixture).indexHtml = some (mainPage emailFailWorld fsFixture)
    ∧ (mainFS emailFailWorld fsFixture).archiveContent (archiveName emailFailWorld)
        = some (mainPage emailFailWorld fsFixture)
    ∧ (∀ smtp : String → String → Except String Unit,
        (main { emailFailWorld with smtpTransaction := smtp } fsFixture).fs
          = mainFS emailFailWorld fsFixture) :=
  c8_email_failure_contained emailFailWorld fsFixture "sender@example.com" "secret"
    "authentication failed" rfl (Or.inl rfl) rfl rfl rfl rfl (fun _ _ => rfl)

/-- C9: the generator probes exactly the two capability shapes in order
(GoogleSearch first, then GoogleSearchRetrieval), configures the tool list
from whichever is found, and raises ImportError instead of proceeding when
neither exists. -/
theorem c9_tool_probe_order (p : Protos)
    (gc : String → Except String Response) (prompt timeStr : String) :
    (p.hasGoogleSearch = true → configureTools p = Except.ok [SearchTool.googleSearch])
    ∧ (p.hasGoogleSearch = false → p.hasGoogleSearchRetrieval = true →
        configureTools p = Except.ok [SearchTool.googleSearchRetrieval "DYNAMIC" "0.3"])
    ∧ (p.hasGoogleSearch = false → p.hasGoogleSearchRetrieval = false →
        generate_report p gc prompt timeStr = Except.error (GenError.importError
          "Google Search tool class not found in installed google-generativeai version.")) := by
  refine ⟨?_, ?_, ?_⟩
  · intro h1
    simp [configureTools, h1]
  · intro h1 h2
    simp [configureTools, h1, h2]
  · intro h1 h2
    simp [generate_report, configureTools, h1, h2]

/-- C9 witness: with neither shape available the generator raises the
ImportError instead of running without the tool. -/
theorem c9_witness :
    generate_report { hasGoogleSearch := false, hasGoogleSearchRetrieval := false }
        (fun _ => Except.ok respFixture) "p" "t"
      = Except.error (GenError.importError
          "Google Search tool class not found in installed google-generativeai version.") :=
  (c9_tool_probe_order { hasGoogleSearch := false, hasGoogleSearchRetrieval := false }
    (fun _ => Except.ok respFixture) "p" "t").2.2 rfl rfl

/-- C10: the history listing embedded in the written page is the reports
directory state read before the archive write of the same run, so the first
run of a date publishes a page (to index.html and to that date's archive
file) whose navigation list does not contain that date's own filename. -/
theorem c10_history_precedes_archive (w : World) (fs : FS)
    (hx : fs.reportMdExists = true)
    (hp : w.protos.hasGoogleSearch = true ∨ w.protos.hasGoogleSearchRetrieval = true)
    (hnew : archiveName w ∉ (listingOf fs).getD []) :
    main w fs = MainOutcome.completed (mainFS w fs)
        (send_email w.emailSender w.emailPassword w.smtpTransaction
          (mainPage w fs) ((w.clock 3).date))
    ∧ (mainFS w fs).indexHtml = some (mainPage w fs)
    ∧ (mainFS w fs).archiveContent (archiveName w) = some (mainPage w fs)
    ∧ mainPage w fs = create_html_page
        (convert_to_html w.markdownRender (mainMarkdown w fs)) (w.clock 2) (listingOf fs)
    ∧ archiveName w ∉ historyFilenames (listingOf fs) := by
  refine ⟨main_eq_completed w fs hx hp, mainFS_indexHtml w fs,
    mainFS_archiveContent w fs, rfl, ?_⟩
  cases hl : listingOf fs with
  | none => simp [historyFilenames]
  | some l =>
    rw [hl] at hnew
    simp only [Option.getD_some] at hnew
    simp only [historyFilenames]
    intro hmem
    have h1 := (List.mem_filter.mp hmem).1
    exact hnew ((sortedDesc_perm l).mem_iff.mp h1)

/-- C10 witness: the first run over an absent reports directory renders no
history entry at all, in particular none for its own date. -/
theorem c10_witness :
    main worldFixture fsFixture = MainOutcome.completed (mainFS worldFixture fsFixture)
        (send_email worldFixture.emailSender worldFixture.emailPassword
          worldFixture.smtpTransaction (mainPage worldFixture fsFixture)
          ((worldFixture.clock 3).date))
    ∧ (mainFS worldFixture fsFixture).indexHtml = some (mainPage worldFixture fsFixture)
    ∧ (mainFS worldFixture fsFixture).archiveContent (archiveName worldFixture)
        = some (mainPage worldFixture fsFixture)
    ∧ mainPage worldFixture fsFixture = create_html_page
        (convert_to_html worldFixture.markdownRender (mainMarkdown worldFixture fsFixture))
        (worldFixture.clock 2) (listingOf fsFixture)
    ∧ archiveName worldFixture ∉ historyFilenames (listingOf fsFixture) :=
  c10_history_precedes_archive worldFixture fsFixture rfl (Or.inl rfl) (by simp [listingOf, fsFixture])

end ECReport
